import Mathlib

/-!
Verification of the TBflix movie-fetching core (`src/App.jsx`).

The embedding models the two functions with algorithmic content:

* `fetchWithRetry(url, options, retries, delay)` — a bounded retry loop
  around one HTTP attempt.  An attempt is modelled as an oracle
  `Nat → Except String V` giving, for each attempt index, either the
  parsed JSON value or the thrown error message.  The outcome records
  the returned value (`Except.ok none` models the `undefined` that the
  JS function returns when the loop body never runs), the number of
  attempts performed, and the number of inter-attempt delays awaited.

* `fetchMovies(query)` — the page-aggregation routine: API-key check,
  1 page for a non-empty query and 2 pages for the empty query,
  empty-page handling, per-record poster-path rewriting, and the
  catch-block classification of error messages by substring search.
  Network behaviour is an oracle `Nat → Nat → Except String PageData`
  giving, for page `p` and attempt `i`, the outcome of that attempt.
  The resulting React state (`movieList`, `errorMessage`, `isLoading`)
  is computed as a function of the previous state, together with a
  trace recording which pages were requested, how many HTTP attempts
  ran, and how many delays elapsed.
-/

namespace TBflix

/-- A raw movie record as returned by the API: the fields the UI reads
plus an `extra` association list standing for any additional provider
fields carried along by the JS object spread. -/
structure MovieRaw where
  id : Int
  title : String
  overview : String
  poster_path : Option String
  extra : List (String × String)
  deriving DecidableEq

/-- The parsed JSON body of one page; `results := none` models a body
whose `results` field is absent or null. -/
structure PageData where
  results : Option (List MovieRaw)
  deriving DecidableEq

/-- The React state written by `fetchMovies`. -/
structure AppState where
  movieList : List MovieRaw
  errorMessage : String
  isLoading : Bool
  deriving DecidableEq

/-- Outcome of one `fetchWithRetry` call: the value returned
(`Except.ok none` is the `undefined` fall-through), the number of
attempts performed and the number of delays awaited. -/
structure RetryOutcome (V : Type) where
  result : Except String (Option V)
  attempts : Nat
  delays : Nat

/-- Observable trace of one `fetchMovies` call: pages requested in
order, total HTTP attempts, total delays. -/
structure FetchTrace where
  pagesRequested : List Nat
  httpCalls : Nat
  delays : Nat
  deriving DecidableEq

/-- JS truthiness of a string: truthy iff non-empty. -/
def strTruthy (s : String) : Bool := decide (s ≠ "")

/-- JS truthiness of the `API_KEY` constant: `none` models an undefined
environment variable, `some ""` an empty one; both are falsy. -/
def keyTruthy : Option String → Bool
  | none => false
  | some s => strTruthy s

/-- The loop body of `fetchWithRetry`, recursing on the remaining fuel
`retries.toNat - i`; `i` is the JS loop counter.  Fuel 0 is the normal
loop exit (`i ≥ retries`), which returns `undefined`. -/
def retryAux {V : Type} (attempt : Nat → Except String V) (retries : Int) :
    Nat → Nat → RetryOutcome V
  | _, 0 => ⟨Except.ok none, 0, 0⟩
  | i, fuel + 1 =>
    match attempt i with
    | Except.ok v => ⟨Except.ok (some v), 1, 0⟩
    | Except.error e =>
      if (i : Int) = retries - 1 then ⟨Except.error e, 1, 0⟩
      else
        let r := retryAux attempt retries (i + 1) fuel
        ⟨r.result, r.attempts + 1, r.delays + 1⟩

/-- `fetchWithRetry(url, options, retries, delay)`: run the loop from
`i = 0`. The url/options pair is abstracted into the attempt oracle. -/
def fetchWithRetry {V : Type} (attempt : Nat → Except String V) (retries : Int) :
    RetryOutcome V :=
  retryAux attempt retries 0 retries.toNat

/-- Poster URL resolution from line 70 of `App.jsx`:
`movie.poster_path ? host + path : placeholder`. -/
def resolvePoster : Option String → String
  | some p => if strTruthy p then "https://image.tmdb.org/t/p/w500" ++ p else "./No-Poster.png"
  | none => "./No-Poster.png"

/-- The per-record transformation `{...movie, poster_path: ...}`:
rewrite `poster_path`, spread every other field unchanged. -/
def transformMovie (m : MovieRaw) : MovieRaw :=
  ⟨m.id, m.title, m.overview, some (resolvePoster m.poster_path), m.extra⟩

/-- Substring scan over character lists, used to model
`String.prototype.includes`. -/
def subScan (sub : List Char) : List Char → Bool
  | [] => sub.isEmpty
  | c :: rest => sub.isPrefixOf (c :: rest) || subScan sub rest

/-- JS `s.includes(sub)`. -/
def strIncludes (s sub : String) : Bool := subScan sub.data s.data

/-- The catch-block classification of `fetchMovies`: check for "401"
first, then "429", else the generic message. -/
def classifyError (msg : String) : String :=
  if strIncludes msg "401" then
    "Invalid API key. Please check your TMDB API configuration."
  else if strIncludes msg "429" then
    "Rate limit exceeded. Please try again later."
  else
    "Error fetching movies. Please try again later."

/-- The first-page-empty message: `query ? search-msg : browse-msg`. -/
def noResultsMessage (query : String) : String :=
  if strTruthy query then "No movies found for your search" else "No movies available"

/-- The message set when `API_KEY` is falsy. -/
def configMissingMessage : String := "API key is missing. Please check your configuration."

/-- The message of the TypeError that JS would raise on reading
`.results` of `undefined` (only reachable when `retries \x3c= 0`). -/
def undefinedDataMessage : String := "TypeError: cannot read properties of undefined"

/-- The trace before any page is requested. -/
def emptyTrace : FetchTrace := ⟨[], 0, 0⟩

/-- Extend a trace with one page request and its retry outcome. -/
def traceAfter (tr : FetchTrace) (page : Nat) (r : RetryOutcome PageData) : FetchTrace :=
  ⟨tr.pagesRequested ++ [page], tr.httpCalls + r.attempts, tr.delays + r.delays⟩

/-- The `for (page = 1; page <= pagesToFetch; page++)` loop of
`fetchMovies`, with fuel = remaining pages.  Fuel 0 is the normal loop
exit: `setMovieList(allResults)`, error message still the `""` set at
the start, `setIsLoading(false)` in the finally block.  A thrown error
(retry budget exhausted, or the unreachable `undefined` body) lands in
the catch block: classified message, empty list.  An empty page either
errors out (page 1) or breaks keeping the accumulator (later pages). -/
def fetchLoop (oracle : Nat → Nat → Except String PageData) (query : String) :
    Nat → Nat → List MovieRaw → FetchTrace → AppState × FetchTrace
  | 0, _, acc, tr => (⟨acc, "", false⟩, tr)
  | fuel + 1, page, acc, tr =>
    match (fetchWithRetry (oracle page) 3).result with
    | Except.error e =>
      (⟨[], classifyError e, false⟩, traceAfter tr page (fetchWithRetry (oracle page) 3))
    | Except.ok none =>
      (⟨[], classifyError undefinedDataMessage, false⟩,
        traceAfter tr page (fetchWithRetry (oracle page) 3))
    | Except.ok (some d) =>
      match d.results with
      | none =>
        if page = 1 then
          (⟨[], noResultsMessage query, false⟩, traceAfter tr page (fetchWithRetry (oracle page) 3))
        else
          (⟨acc, "", false⟩, traceAfter tr page (fetchWithRetry (oracle page) 3))
      | some rs =>
        if rs.length = 0 then
          if page = 1 then
            (⟨[], noResultsMessage query, false⟩,
              traceAfter tr page (fetchWithRetry (oracle page) 3))
          else
            (⟨acc, "", false⟩, traceAfter tr page (fetchWithRetry (oracle page) 3))
        else
          fetchLoop oracle query fuel (page + 1) (acc ++ rs.map transformMovie)
            (traceAfter tr page (fetchWithRetry (oracle page) 3))

/-- `fetchMovies(query)`: API-key check, then the page loop with
`pagesToFetch = query ? 1 : 2`.  When the key is falsy only
`errorMessage` and `isLoading` are written; `movieList` keeps its
previous value and no page is requested. -/
def fetchMovies (apiKey : Option String) (query : String)
    (oracle : Nat → Nat → Except String PageData) (prev : AppState) :
    AppState × FetchTrace :=
  if keyTruthy apiKey then
    fetchLoop oracle query (if strTruthy query then 1 else 2) 1 [] emptyTrace
  else
    (⟨prev.movieList, configMissingMessage, false⟩, emptyTrace)

/-- The initial React state: `useState([])`, `useState('')`,
`useState(false)`. -/
def initialState : AppState := ⟨[], "", false⟩

/-- A whole session: the app starts from `initialState` and runs one
`fetchMovies` invocation per entry of `invs` (the query typed and the
network behaviour seen), each reading the state the previous one left.
The API key is a module constant, identical across invocations. -/
def runApp (apiKey : Option String)
    (invs : List (String × (Nat → Nat → Except String PageData))) : AppState :=
  invs.foldl (fun st qo => (fetchMovies apiKey qo.1 qo.2 st).1) initialState

/-! ### Concrete inputs used by the witness theorems -/

/-- An attempt oracle failing on attempts 1 and 2 and succeeding on
attempt 3. -/
def attemptFFS : Nat → Except String Nat := fun i => if i ≤ 1 then Except.error "boom" else Except.ok 7

/-- An attempt oracle succeeding immediately. -/
def attemptOK : Nat → Except String Nat := fun _ => Except.ok 5

/-- An attempt oracle failing on every attempt. -/
def attemptFFF : Nat → Except String Nat := fun _ => Except.error "down"

/-- A network oracle answering every attempt with a body whose
`results` field is absent. -/
def oracleAny : Nat → Nat → Except String PageData := fun _ _ => Except.ok ⟨none⟩

/-- A network oracle answering every attempt with zero results. -/
def oracleNoResults : Nat → Nat → Except String PageData := fun _ _ => Except.ok ⟨some []⟩

/-- A concrete raw record. -/
def mkRaw (n : Nat) : MovieRaw := ⟨Int.ofNat n, "t", "o", some "/p.jpg", []⟩

/-- Twenty concrete raw records, ids 0–19. -/
def rawPage1 : List MovieRaw := (List.range 20).map mkRaw

/-- Twenty concrete raw records, ids 20–39. -/
def rawPage2 : List MovieRaw := (List.range 20).map (fun n => mkRaw (20 + n))

/-- A network oracle returning 20 records on page 1 and 20 on page 2. -/
def oracle2p : Nat → Nat → Except String PageData := fun page _ =>
  if page = 1 then Except.ok ⟨some rawPage1⟩ else Except.ok ⟨some rawPage2⟩

/-- A network oracle returning 20 records on page 1 and zero on
page 2. -/
def oracleP2Empty : Nat → Nat → Except String PageData := fun page _ =>
  if page = 1 then Except.ok ⟨some rawPage1⟩ else Except.ok ⟨some []⟩

/-- A network oracle whose attempts all fail with a message containing
both "401" and "429". -/
def bothCodesOracle : Nat → Nat → Except String PageData :=
  fun _ _ => Except.error "HTTP error! status: 401 after 429"

/-- A network oracle whose attempts all fail with a 429 message. -/
def oracle429 : Nat → Nat → Except String PageData :=
  fun _ _ => Except.error "HTTP error! status: 429"

/-! ### Helper lemmas about the retry loop -/

/-- With budget 3, a first successful attempt returns at once: one
attempt, no delay. -/
lemma retry3_first_ok {V : Type} (attempt : Nat → Except String V) (v : V)
    (h : attempt 0 = Except.ok v) :
    fetchWithRetry attempt 3 = ⟨Except.ok (some v), 1, 0⟩ := by
  simp [fetchWithRetry, retryAux, h]

/-- With budget 3, failures on attempts 1 and 2 and success on attempt
3 return the success value after three attempts and two delays. -/
lemma retry3_fail_fail_ok {V : Type} (attempt : Nat → Except String V) (e1 e2 : String) (v : V)
    (h0 : attempt 0 = Except.error e1) (h1 : attempt 1 = Except.error e2)
    (h2 : attempt 2 = Except.ok v) :
    fetchWithRetry attempt 3 = ⟨Except.ok (some v), 3, 2⟩ := by
  simp [fetchWithRetry, retryAux, h0, h1, h2]

/-- With budget 3, three failing attempts propagate the third failure
unchanged, after three attempts and two delays. -/
lemma retry3_all_fail {V : Type} (attempt : Nat → Except String V) (e1 e2 e3 : String)
    (h0 : attempt 0 = Except.error e1) (h1 : attempt 1 = Except.error e2)
    (h2 : attempt 2 = Except.error e3) :
    fetchWithRetry attempt 3 = ⟨Except.error e3, 3, 2⟩ := by
  simp [fetchWithRetry, retryAux, h0, h1, h2]

/-! ### Helper lemmas about the page loop -/

/-- Whenever the page loop leaves a non-empty error message, it leaves
an empty movie list: every error branch discards the accumulator. -/
lemma fetchLoop_error_nil (oracle : Nat → Nat → Except String PageData) (query : String) :
    ∀ fuel page acc tr, (fetchLoop oracle query fuel page acc tr).1.errorMessage ≠ "" →
      (fetchLoop oracle query fuel page acc tr).1.movieList = [] := by
  intro fuel
  induction fuel with
  | zero => intro page acc tr h; simp [fetchLoop] at h
  | succ n ih =>
    intro page acc tr h
    rcases hr : (fetchWithRetry (oracle page) 3).result with e | od
    · simp [fetchLoop, hr]
    · rcases od with _ | d
      · simp [fetchLoop, hr]
      · rcases hres : d.results with _ | rs
        · by_cases hp : page = 1
          · subst hp; simp [fetchLoop, hr, hres]
          · simp [fetchLoop, hr, hres, hp] at h
        · by_cases hlen : rs.length = 0
          · by_cases hp : page = 1
            · subst hp; simp [fetchLoop, hr, hres, hlen]
            · simp [fetchLoop, hr, hres, hlen, hp] at h
          · simp only [fetchLoop, hr, hres, if_neg hlen] at h ⊢
            exact ih _ _ _ h

/-- The page loop requests a contiguous run of pages starting at its
first page, never more than its fuel. -/
lemma fetchLoop_pages (oracle : Nat → Nat → Except String PageData) (query : String) :
    ∀ fuel page acc tr, ∃ k, k ≤ fuel ∧
      (fetchLoop oracle query fuel page acc tr).2.pagesRequested =
        tr.pagesRequested ++ List.range' page k := by
  intro fuel
  induction fuel with
  | zero => intro page acc tr; exact ⟨0, Nat.le_refl 0, by simp [fetchLoop]⟩
  | succ n ih =>
    intro page acc tr
    rcases hr : (fetchWithRetry (oracle page) 3).result with e | od
    · exact ⟨1, Nat.succ_le_succ (Nat.zero_le n), by simp [fetchLoop, hr, traceAfter, List.range']⟩
    · rcases od with _ | d
      · exact ⟨1, Nat.succ_le_succ (Nat.zero_le n), by simp [fetchLoop, hr, traceAfter, List.range']⟩
      · rcases hres : d.results with _ | rs
        · refine ⟨1, Nat.succ_le_succ (Nat.zero_le n), ?_⟩
          by_cases hp : page = 1
          · subst hp; simp [fetchLoop, hr, hres, traceAfter, List.range']
          · simp [fetchLoop, hr, hres, hp, traceAfter, List.range']
        · by_cases hlen : rs.length = 0
          · refine ⟨1, Nat.succ_le_succ (Nat.zero_le n), ?_⟩
            by_cases hp : page = 1
            · subst hp; simp [fetchLoop, hr, hres, hlen, traceAfter, List.range']
            · simp [fetchLoop, hr, hres, hlen, hp, traceAfter, List.range']
          · obtain ⟨k, hk, hpages⟩ :=
              ih (page + 1) (acc ++ rs.map transformMovie)
                (traceAfter tr page (fetchWithRetry (oracle page) 3))
            refine ⟨k + 1, Nat.succ_le_succ hk, ?_⟩
            simp only [fetchLoop, hr, hres, if_neg hlen]
            rw [hpages]
            simp [traceAfter, List.range', List.append_assoc]

/-- One `fetchMovies` invocation preserves the session invariant: if
the key is falsy the movie list is untouched, and a non-empty error
message always comes with an empty movie list. -/
lemma fetchMovies_inv (apiKey : Option String) (query : String)
    (oracle : Nat → Nat → Except String PageData) (st : AppState)
    (hk : keyTruthy apiKey = false → st.movieList = []) :
    (keyTruthy apiKey = false → (fetchMovies apiKey query oracle st).1.movieList = []) ∧
    ((fetchMovies apiKey query oracle st).1.errorMessage ≠ "" →
      (fetchMovies apiKey query oracle st).1.movieList = []) := by
  by_cases h : keyTruthy apiKey
  · simp only [fetchMovies, if_pos h]
    exact ⟨fun hf => absurd h (by simp [hf]), fun he => fetchLoop_error_nil _ _ _ _ _ _ he⟩
  · have h0 : keyTruthy apiKey = false := by simpa using h
    simp only [fetchMovies, if_neg h]
    exact ⟨fun _ => hk h0, fun _ => hk h0⟩

/-- The session invariant holds after any fold of invocations from a
state that satisfies it. -/
lemma foldl_inv (apiKey : Option String) :
    ∀ (invs : List (String × (Nat → Nat → Except String PageData))) (st : AppState),
      (keyTruthy apiKey = false → st.movieList = []) →
      (st.errorMessage ≠ "" → st.movieList = []) →
      (keyTruthy apiKey = false →
        (invs.foldl (fun s qo => (fetchMovies apiKey qo.1 qo.2 s).1) st).movieList = []) ∧
      ((invs.foldl (fun s qo => (fetchMovies apiKey qo.1 qo.2 s).1) st).errorMessage ≠ "" →
        (invs.foldl (fun s qo => (fetchMovies apiKey qo.1 qo.2 s).1) st).movieList = []) := by
  intro invs
  induction invs with
  | nil => intro st hk he; exact ⟨hk, he⟩
  | cons qo rest ih =>
    intro st hk he
    obtain ⟨hk2, he2⟩ := fetchMovies_inv apiKey qo.1 qo.2 st hk
    simpa using ih ((fetchMovies apiKey qo.1 qo.2 st).1) hk2 he2

/-! ### Claim theorems -/

/-- Claim C1: in every reachable state of the app, data and error are
exclusive — whenever an error message is presented (configuration
missing, no results, unauthorized, rate-limited, or transient
failure), the presented movie list is empty, so partial results
accumulated before a failure are never shown. -/
theorem fetch_outcome_exclusive (apiKey : Option String)
    (invs : List (String × (Nat → Nat → Except String PageData)))
    (h : (runApp apiKey invs).errorMessage ≠ "") :
    (runApp apiKey invs).movieList = [] := by
  simp only [runApp] at h ⊢
  exact (foldl_inv apiKey invs initialState (fun _ => rfl) (fun he => absurd rfl he)).2 h

/-- Witness for claim C1: a session with no API key ends with a
non-empty error message and an empty movie list. -/
theorem fetch_outcome_exclusive_witness :
    (runApp none [("q", oracleAny)]).movieList = [] :=
  fetch_outcome_exclusive none [("q", oracleAny)] (by decide)

/-- Claim C2: with `retries = 3`, failures on attempts 1 and 2
followed by success on attempt 3 return the success value after
exactly two delays; a first successful attempt short-circuits with one
attempt and no delay; and three failing attempts propagate the final
failure unchanged. -/
theorem fetchWithRetry_attempt_semantics :
    (∀ (V : Type) (attempt : Nat → Except String V) (e1 e2 : String) (v : V),
        attempt 0 = Except.error e1 → attempt 1 = Except.error e2 → attempt 2 = Except.ok v →
        fetchWithRetry attempt 3 = ⟨Except.ok (some v), 3, 2⟩) ∧
    (∀ (V : Type) (attempt : Nat → Except String V) (v : V),
        attempt 0 = Except.ok v →
        fetchWithRetry attempt 3 = ⟨Except.ok (some v), 1, 0⟩) ∧
    (∀ (V : Type) (attempt : Nat → Except String V) (e1 e2 e3 : String),
        attempt 0 = Except.error e1 → attempt 1 = Except.error e2 → attempt 2 = Except.error e3 →
        fetchWithRetry attempt 3 = ⟨Except.error e3, 3, 2⟩) :=
  ⟨fun _ a e1 e2 v h0 h1 h2 => retry3_fail_fail_ok a e1 e2 v h0 h1 h2,
   fun _ a v h => retry3_first_ok a v h,
   fun _ a e1 e2 e3 h0 h1 h2 => retry3_all_fail a e1 e2 e3 h0 h1 h2⟩

/-- Witness for claim C2: the three retry behaviours at concrete
attempt oracles. -/
theorem fetchWithRetry_attempt_semantics_witness :
    fetchWithRetry attemptFFS 3 = ⟨Except.ok (some 7), 3, 2⟩ ∧
    fetchWithRetry attemptOK 3 = ⟨Except.ok (some 5), 1, 0⟩ ∧
    fetchWithRetry attemptFFF 3 = ⟨Except.error "down", 3, 2⟩ :=
  ⟨fetchWithRetry_attempt_semantics.1 Nat attemptFFS "boom" "boom" 7 rfl rfl rfl,
   fetchWithRetry_attempt_semantics.2.1 Nat attemptOK 5 rfl,
   fetchWithRetry_attempt_semantics.2.2 Nat attemptFFF "down" "down" "down" rfl rfl rfl⟩

/-- Claim C3: an empty first page terminates the fetch immediately
with the mode-specific no-results message, an empty list, and no later
page requested; an empty later page (browse mode) stops accumulation
but returns the earlier pages as a success with no error. -/
theorem fetchMovies_empty_page_handling :
    (∀ (apiKey : Option String) (query : String)
        (oracle : Nat → Nat → Except String PageData) (prev : AppState),
      keyTruthy apiKey = true → oracle 1 0 = Except.ok ⟨some []⟩ →
      (fetchMovies apiKey query oracle prev).1 =
        ⟨[], if strTruthy query then "No movies found for your search" else "No movies available",
          false⟩ ∧
      (fetchMovies apiKey query oracle prev).2.pagesRequested = [1]) ∧
    (∀ (apiKey : Option String) (query : String)
        (oracle : Nat → Nat → Except String PageData) (prev : AppState) (r1 : List MovieRaw),
      keyTruthy apiKey = true → strTruthy query = false →
      oracle 1 0 = Except.ok ⟨some r1⟩ → r1 ≠ [] →
      oracle 2 0 = Except.ok ⟨some []⟩ →
      (fetchMovies apiKey query oracle prev).1 = ⟨r1.map transformMovie, "", false⟩ ∧
      (fetchMovies apiKey query oracle prev).2.pagesRequested = [1, 2]) := by
  constructor
  · intro apiKey query oracle prev hk h1
    have hrw := retry3_first_ok (oracle 1) (⟨some []⟩ : PageData) h1
    by_cases hq : strTruthy query <;>
      simp [fetchMovies, hk, hq, fetchLoop, hrw, traceAfter, emptyTrace, noResultsMessage]
  · intro apiKey query oracle prev r1 hk hq h1 hne h2
    have hrw1 := retry3_first_ok (oracle 1) (⟨some r1⟩ : PageData) h1
    have hrw2 := retry3_first_ok (oracle 2) (⟨some []⟩ : PageData) h2
    simp [fetchMovies, hk, hq, fetchLoop, hrw1, hrw2, traceAfter, emptyTrace, hne]

/-- Witness for claim C3: an empty first page in search mode, and an
empty second page in browse mode, at concrete oracles. -/
theorem fetchMovies_empty_page_handling_witness :
    ((fetchMovies (some "k") "batman" oracleNoResults initialState).1 =
      ⟨[], if strTruthy "batman" then "No movies found for your search" else "No movies available",
        false⟩ ∧
     (fetchMovies (some "k") "batman" oracleNoResults initialState).2.pagesRequested = [1]) ∧
    ((fetchMovies (some "k") "" oracleP2Empty initialState).1 =
      ⟨rawPage1.map transformMovie, "", false⟩ ∧
     (fetchMovies (some "k") "" oracleP2Empty initialState).2.pagesRequested = [1, 2]) :=
  ⟨fetchMovies_empty_page_handling.1 (some "k") "batman" oracleNoResults initialState rfl rfl,
   fetchMovies_empty_page_handling.2 (some "k") "" oracleP2Empty initialState rawPage1 rfl rfl
      rfl (by decide) rfl⟩

/-- Claim C4 counterexample: a failure whose message contains both
"401" and "429" is classified as the invalid-credential message, not
the rate-limit message, because the 401 check runs first — refuting
the claim that any message containing "429" yields the rate-limit
message. -/
theorem errorClassification_cex :
    strIncludes "HTTP error! status: 401 after 429" "429" = true ∧
    (fetchMovies (some "k") "z" bothCodesOracle initialState).1.errorMessage =
      "Invalid API key. Please check your TMDB API configuration." ∧
    (fetchMovies (some "k") "z" bothCodesOracle initialState).1.errorMessage ≠
      "Rate limit exceeded. Please try again later." :=
  ⟨by decide, by decide, by decide⟩

/-- Claim C4 as amended: classification is sequential — a message
containing "401" yields the invalid-credential message; one containing
"429" but not "401" yields the rate-limit message; any other failure
yields the generic try-again-later message; the list is emptied. -/
theorem errorClassification_amended (apiKey : Option String) (query : String)
    (oracle : Nat → Nat → Except String PageData) (prev : AppState) (e1 e2 e3 : String)
    (hk : keyTruthy apiKey = true)
    (h0 : oracle 1 0 = Except.error e1) (h1 : oracle 1 1 = Except.error e2)
    (h2 : oracle 1 2 = Except.error e3) :
    (fetchMovies apiKey query oracle prev).1.movieList = [] ∧
    (strIncludes e3 "401" = true →
      (fetchMovies apiKey query oracle prev).1.errorMessage =
        "Invalid API key. Please check your TMDB API configuration.") ∧
    (strIncludes e3 "401" = false → strIncludes e3 "429" = true →
      (fetchMovies apiKey query oracle prev).1.errorMessage =
        "Rate limit exceeded. Please try again later.") ∧
    (strIncludes e3 "401" = false → strIncludes e3 "429" = false →
      (fetchMovies apiKey query oracle prev).1.errorMessage =
        "Error fetching movies. Please try again later.") := by
  have hrw := retry3_all_fail (oracle 1) e1 e2 e3 h0 h1 h2
  have hout : (fetchMovies apiKey query oracle prev).1 = ⟨[], classifyError e3, false⟩ := by
    by_cases hq : strTruthy query <;>
      simp [fetchMovies, hk, hq, fetchLoop, hrw, traceAfter, emptyTrace]
  rw [hout]
  refine ⟨rfl, fun h401 => ?_, fun h401 h429 => ?_, fun h401 h429 => ?_⟩
  · simp [classifyError, h401]
  · simp [classifyError, h401, h429]
  · simp [classifyError, h401, h429]

/-- Witness for the amended claim C4: a pure 429 failure yields the
rate-limit message. -/
theorem errorClassification_amended_witness :
    (fetchMovies (some "k") "" oracle429 initialState).1.errorMessage =
      "Rate limit exceeded. Please try again later." :=
  (errorClassification_amended (some "k") "" oracle429 initialState
      "HTTP error! status: 429" "HTTP error! status: 429" "HTTP error! status: 429"
      rfl rfl rfl rfl).2.2.1 (by decide) (by decide)

/-- Claim C5: when the API credential is falsy, every query returns
the configuration-missing error immediately, with no page requested,
zero HTTP attempts and zero delays. -/
theorem fetchMovies_missing_key (apiKey : Option String) (query : String)
    (oracle : Nat → Nat → Except String PageData) (prev : AppState)
    (h : keyTruthy apiKey = false) :
    fetchMovies apiKey query oracle prev =
      (⟨prev.movieList, configMissingMessage, false⟩, emptyTrace) := by
  simp [fetchMovies, h]

/-- Witness for claim C5: a concrete invocation with an absent key. -/
theorem fetchMovies_missing_key_witness :
    fetchMovies none "batman" oracleAny initialState =
      (⟨[], configMissingMessage, false⟩, emptyTrace) :=
  fetchMovies_missing_key none "batman" oracleAny initialState rfl

/-- Claim C6: a non-empty query requests at most one page and an empty
query at most two, always in order starting at page 1. -/
theorem fetchMovies_page_budget (apiKey : Option String) (query : String)
    (oracle : Nat → Nat → Except String PageData) (prev : AppState) :
    (strTruthy query = true →
      (fetchMovies apiKey query oracle prev).2.pagesRequested = [] ∨
      (fetchMovies apiKey query oracle prev).2.pagesRequested = [1]) ∧
    (strTruthy query = false →
      (fetchMovies apiKey query oracle prev).2.pagesRequested = [] ∨
      (fetchMovies apiKey query oracle prev).2.pagesRequested = [1] ∨
      (fetchMovies apiKey query oracle prev).2.pagesRequested = [1, 2]) := by
  by_cases hk : keyTruthy apiKey
  · constructor
    · intro hq
      simp only [fetchMovies, if_pos hk, hq, if_pos]
      obtain ⟨k, hk1, hp⟩ := fetchLoop_pages oracle query 1 1 [] emptyTrace
      rw [hp]
      interval_cases k <;> simp [emptyTrace, List.range']
    · intro hq
      simp only [fetchMovies, if_pos hk, hq, Bool.false_eq_true, if_false]
      obtain ⟨k, hk2, hp⟩ := fetchLoop_pages oracle query 2 1 [] emptyTrace
      rw [hp]
      interval_cases k <;> simp [emptyTrace, List.range']
  · have hk0 : keyTruthy apiKey = false := by simpa using hk
    constructor <;> intro _ <;> left <;> simp [fetchMovies, hk0, emptyTrace]

/-- Witness for claim C6: the browse-mode page budget at a concrete
oracle. -/
theorem fetchMovies_page_budget_witness :
    (fetchMovies (some "k") "" oracleAny initialState).2.pagesRequested = [] ∨
    (fetchMovies (some "k") "" oracleAny initialState).2.pagesRequested = [1] ∨
    (fetchMovies (some "k") "" oracleAny initialState).2.pagesRequested = [1, 2] :=
  (fetchMovies_page_budget (some "k") "" oracleAny initialState).2 (by decide)

/-- Claim C7: poster URL resolution maps any non-empty fragment to the
fixed host/size prefix concatenated with the fragment, and an absent
or empty fragment to the fixed placeholder path. -/
theorem resolvePoster_spec :
    (∀ s : String, s ≠ "" → resolvePoster (some s) = "https://image.tmdb.org/t/p/w500" ++ s) ∧
    resolvePoster (some "/abc.jpg") = "https://image.tmdb.org/t/p/w500" ++ "/abc.jpg" ∧
    resolvePoster none = "./No-Poster.png" ∧
    resolvePoster (some "") = "./No-Poster.png" := by
  refine ⟨fun s hs => ?_, by decide, rfl, by decide⟩
  simp [resolvePoster, strTruthy, hs]

/-- Witness for claim C7: a concrete non-empty fragment. -/
theorem resolvePoster_spec_witness :
    resolvePoster (some "/zz.png") = "https://image.tmdb.org/t/p/w500" ++ "/zz.png" :=
  resolvePoster_spec.1 "/zz.png" (by decide)

/-- Claim C8: a successful fetch returns the transformed records of
the fetched pages concatenated in page order, each page in original
order — both pages in browse mode, the single page in search mode. -/
theorem fetchMovies_concatenates_pages :
    (∀ (apiKey : Option String) (query : String)
        (oracle : Nat → Nat → Except String PageData) (prev : AppState) (r1 r2 : List MovieRaw),
      keyTruthy apiKey = true → strTruthy query = false →
      oracle 1 0 = Except.ok ⟨some r1⟩ → r1 ≠ [] →
      oracle 2 0 = Except.ok ⟨some r2⟩ → r2 ≠ [] →
      (fetchMovies apiKey query oracle prev).1 =
        ⟨r1.map transformMovie ++ r2.map transformMovie, "", false⟩) ∧
    (∀ (apiKey : Option String) (query : String)
        (oracle : Nat → Nat → Except String PageData) (prev : AppState) (r1 : List MovieRaw),
      keyTruthy apiKey = true → strTruthy query = true →
      oracle 1 0 = Except.ok ⟨some r1⟩ → r1 ≠ [] →
      (fetchMovies apiKey query oracle prev).1 = ⟨r1.map transformMovie, "", false⟩) := by
  constructor
  · intro apiKey query oracle prev r1 r2 hk hq h1 hne1 h2 hne2
    have hrw1 := retry3_first_ok (oracle 1) (⟨some r1⟩ : PageData) h1
    have hrw2 := retry3_first_ok (oracle 2) (⟨some r2⟩ : PageData) h2
    simp [fetchMovies, hk, hq, fetchLoop, hrw1, hrw2, traceAfter, emptyTrace, hne1, hne2]
  · intro apiKey query oracle prev r1 hk hq h1 hne
    have hrw1 := retry3_first_ok (oracle 1) (⟨some r1⟩ : PageData) h1
    simp [fetchMovies, hk, hq, fetchLoop, hrw1, traceAfter, emptyTrace, hne]

/-- Witness for claim C8: 20 + 20 records across two browse-mode pages
give exactly 40 entries in provider order. -/
theorem fetchMovies_concatenates_pages_witness :
    (fetchMovies (some "k") "" oracle2p initialState).1 =
      ⟨rawPage1.map transformMovie ++ rawPage2.map transformMovie, "", false⟩ ∧
    (fetchMovies (some "k") "" oracle2p initialState).1.movieList.length = 40 := by
  have h := fetchMovies_concatenates_pages.1 (some "k") "" oracle2p initialState rawPage1 rawPage2
    rfl rfl rfl (by decide) rfl (by decide)
  refine ⟨h, ?_⟩
  rw [h]
  simp [rawPage1, rawPage2]

/-- Claim C9: the per-record transformation rewrites only
`poster_path`; id, title, overview and all additional provider fields
are carried over unchanged. -/
theorem transformMovie_frame (m : MovieRaw) :
    (transformMovie m).id = m.id ∧ (transformMovie m).title = m.title ∧
    (transformMovie m).overview = m.overview ∧ (transformMovie m).extra = m.extra ∧
    (transformMovie m).poster_path = some (resolvePoster m.poster_path) :=
  ⟨rfl, rfl, rfl, rfl, rfl⟩

/-- Claim C10: a retry budget of zero or less performs no attempt and
no delay, and resolves successfully with no value. -/
theorem fetchWithRetry_no_budget {V : Type} (attempt : Nat → Except String V) (retries : Int)
    (h : retries ≤ 0) : fetchWithRetry attempt retries = ⟨Except.ok none, 0, 0⟩ := by
  have ht : retries.toNat = 0 := Int.toNat_of_nonpos h
  simp [fetchWithRetry, ht, retryAux]

/-- Witness for claim C10: budget −1 at a concrete failing attempt
oracle. -/
theorem fetchWithRetry_no_budget_witness :
    fetchWithRetry attemptFFF (-1) = ⟨Except.ok none, 0, 0⟩ :=
  fetchWithRetry_no_budget attemptFFF (-1) (by decide)

end TBflix
